import Mathlib

/-!
Verification of the formatting-configuration module `src/.prettierrc.mjs`
of the repository `parahyba-com/sx`.

The module is a single static ES-module export: an object literal with the
eight fields `semi`, `singleQuote`, `trailingComma`, `tabWidth`,
`printWidth`, `arrowParens`, `endOfLine`, `plugins`. We embed the object
as a Lean structure with the source's field names and the literal as a
constant, and model evaluation of the module (the "loader") as a pure
function of the ambient environment, which the module body never reads.
-/

namespace Sx

/-- The shape of the exported configuration object, with the field names
used in `src/.prettierrc.mjs`. The two numeric fields are non-negative
integers in the source literal, so they are embedded as `Nat`; the three
enumerated options are string-valued in the source and are embedded as
`String`. -/
structure Config where
  semi : Bool
  singleQuote : Bool
  trailingComma : String
  tabWidth : Nat
  printWidth : Nat
  arrowParens : String
  endOfLine : String
  plugins : List String
  deriving Repr, DecidableEq

/-- The object literal assigned to `config` in `src/.prettierrc.mjs`,
lines 2-11, field for field. -/
def config : Config :=
  { semi := true
  , singleQuote := false
  , trailingComma := "es5"
  , tabWidth := 2
  , printWidth := 100
  , arrowParens := "always"
  , endOfLine := "lf"
  , plugins := [] }

/-- An ambient process environment (key-value pairs), available to a
module when it is evaluated. The body of `src/.prettierrc.mjs` never
reads it. -/
def Environment : Type := List (String × String)

/-- Evaluating the module `src/.prettierrc.mjs` and reading its default
export. The module body is the single object literal `config`; it takes
no arguments, performs no I/O and never consults the environment `env`,
so evaluation returns the literal unconditionally. -/
def load (_env : Environment) : Config := config

/-- The result of the n-th invocation of the loader in environment
`env`. The module body holds no mutable state and `export default`
re-exposes the same binding, so every invocation evaluates to the same
literal; the call counter `n` is not consulted. -/
def loadNth (env : Environment) (_n : Nat) : Config := load env

/-- Evaluation of the module with its exception channel made explicit:
an ES module evaluation either completes with a value or throws. The
body of `src/.prettierrc.mjs` is a single object literal built from
boolean, string, number and empty-array literals, none of which can
throw, so evaluation always completes normally. -/
def loadExc (env : Environment) : Except String Config :=
  Except.ok (load env)

/-- Evaluation of the module with the shared mutable state it could
touch made explicit: the loader receives the state and returns it
alongside the value. The body of `src/.prettierrc.mjs` assigns no
property, calls no function and writes nothing, so the state passes
through untouched. -/
def loadSt (s : Environment) : Config × Environment := (load [], s)

/-- Appending one plugin identifier to the `plugins` array of a
configuration, leaving the other seven fields as they are (the test
harness operation described by the spec). -/
def appendPlugin (c : Config) (p : String) : Config :=
  { c with plugins := c.plugins ++ [p] }

/-! ### Spec-side view

The spec's data model (§3) names the fields differently and uses
enumerated types. The following definitions follow the spec's words and
exist only to be compared with the source-derived `config`. -/

/-- Spec §3: preferred string-literal delimiter. -/
inductive QuoteStyle where
  | single
  | double
  deriving Repr, DecidableEq

/-- Spec §3: where trailing commas are inserted in multi-line lists. -/
inductive TrailingComma where
  | none
  | es5
  | all
  deriving Repr, DecidableEq

/-- Spec §3: whether single-parameter arrow functions get parentheses. -/
inductive ArrowParens where
  | always
  | avoid
  deriving Repr, DecidableEq

/-- Spec §3: newline representation written to disk. -/
inductive LineEnding where
  | lf
  | crlf
  | cr
  | auto
  deriving Repr, DecidableEq

/-- Spec §3: the FormatPreferences record, with the spec's field names
and enumerated types. -/
structure FormatPreferences where
  statementTerminator : Bool
  quoteStyle : QuoteStyle
  trailingComma : TrailingComma
  indentWidth : Nat
  maxLineWidth : Nat
  arrowParensPolicy : ArrowParens
  lineEnding : LineEnding
  plugins : List String
  deriving Repr, DecidableEq

/-- Reading a trailing-comma option string into the spec's enumerated
domain; out-of-domain strings are rejected. -/
def parseTC : String → Option TrailingComma
  | "none" => some TrailingComma.none
  | "es5" => some TrailingComma.es5
  | "all" => some TrailingComma.all
  | _ => Option.none

/-- Reading an arrow-parens option string into the spec's enumerated
domain; out-of-domain strings are rejected. -/
def parseAP : String → Option ArrowParens
  | "always" => some ArrowParens.always
  | "avoid" => some ArrowParens.avoid
  | _ => Option.none

/-- Reading an end-of-line option string into the spec's enumerated
domain; out-of-domain strings are rejected. -/
def parseLE : String → Option LineEnding
  | "lf" => some LineEnding.lf
  | "crlf" => some LineEnding.crlf
  | "cr" => some LineEnding.cr
  | "auto" => some LineEnding.auto
  | _ => Option.none

/-- The spec-side reading of a source configuration: `semi` becomes
`statementTerminator`, `singleQuote = false` becomes
`quoteStyle = double` (and `true` becomes `single`), `tabWidth` becomes
`indentWidth`, `printWidth` becomes `maxLineWidth`, `endOfLine` becomes
`lineEnding`, and each string-valued option is read into its enumerated
domain (rejecting the whole configuration when any is out of domain). -/
def specView (c : Config) : Option FormatPreferences := do
  let tc ← parseTC c.trailingComma
  let ap ← parseAP c.arrowParens
  let le ← parseLE c.endOfLine
  some
    { statementTerminator := c.semi
    , quoteStyle := if c.singleQuote then QuoteStyle.single else QuoteStyle.double
    , trailingComma := tc
    , indentWidth := c.tabWidth
    , maxLineWidth := c.printWidth
    , arrowParensPolicy := ap
    , lineEnding := le
    , plugins := c.plugins }

/-- The fixed record the spec's end-to-end scenario (§8) promises from
`load()`. -/
def specCfg : FormatPreferences :=
  { statementTerminator := true
  , quoteStyle := QuoteStyle.double
  , trailingComma := TrailingComma.es5
  , indentWidth := 2
  , maxLineWidth := 100
  , arrowParensPolicy := ArrowParens.always
  , lineEnding := LineEnding.lf
  , plugins := [] }

/-! ### Serialization

The spec's round-trip property (§8) speaks of serializing the
configuration to its target-language literal form and re-parsing it.
The target-language literal of `src/.prettierrc.mjs` is the
JavaScript object literal itself; we model that form as a small
JSON-like value tree. -/

/-- A JavaScript-literal value tree: booleans, non-negative number
literals, string literals, array literals and object literals, which is
the fragment the source object literal uses. -/
inductive JValue where
  | bool : Bool → JValue
  | num : Nat → JValue
  | str : String → JValue
  | arr : List JValue → JValue
  | obj : List (String × JValue) → JValue
  deriving Repr

/-- Writing a configuration as its object-literal form, with the key
order of `src/.prettierrc.mjs`. -/
def serialize (c : Config) : JValue :=
  JValue.obj
    [ ("semi", JValue.bool c.semi)
    , ("singleQuote", JValue.bool c.singleQuote)
    , ("trailingComma", JValue.str c.trailingComma)
    , ("tabWidth", JValue.num c.tabWidth)
    , ("printWidth", JValue.num c.printWidth)
    , ("arrowParens", JValue.str c.arrowParens)
    , ("endOfLine", JValue.str c.endOfLine)
    , ("plugins", JValue.arr (c.plugins.map JValue.str)) ]

/-- Reading a boolean literal back; anything else is rejected. -/
def asBool : JValue → Option Bool
  | JValue.bool b => some b
  | _ => Option.none

/-- Reading a number literal back; anything else is rejected. -/
def asNum : JValue → Option Nat
  | JValue.num n => some n
  | _ => Option.none

/-- Reading a string literal back; anything else is rejected. -/
def asStr : JValue → Option String
  | JValue.str s => some s
  | _ => Option.none

/-- Reading an array of string literals back; anything else is
rejected. -/
def asStrList : JValue → Option (List String)
  | JValue.arr vs => vs.mapM asStr
  | _ => Option.none

/-- Reading an object-literal form back into a configuration: the
object must carry exactly the eight keys of `src/.prettierrc.mjs`, in
its order, each with a value of the right shape. -/
def parse : JValue → Option Config
  | JValue.obj
      [ ("semi", v1)
      , ("singleQuote", v2)
      , ("trailingComma", v3)
      , ("tabWidth", v4)
      , ("printWidth", v5)
      , ("arrowParens", v6)
      , ("endOfLine", v7)
      , ("plugins", v8) ] => do
    let s ← asBool v1
    let q ← asBool v2
    let tc ← asStr v3
    let tw ← asNum v4
    let pw ← asNum v5
    let ap ← asStr v6
    let eol ← asStr v7
    let pl ← asStrList v8
    some
      { semi := s
      , singleQuote := q
      , trailingComma := tc
      , tabWidth := tw
      , printWidth := pw
      , arrowParens := ap
      , endOfLine := eol
      , plugins := pl }
  | _ => Option.none

end Sx

namespace Sx

/-! ### Claim theorems -/

/-- Claim C1: the loader takes no input beyond the ambient environment
(which it ignores) and returns exactly the fixed record of spec §3:
statementTerminator = true, quoteStyle = double, trailingComma = es5,
indentWidth = 2, maxLineWidth = 100, arrowParensPolicy = always,
lineEnding = lf, plugins = empty. -/
theorem load_returns_spec_record :
    specView (load []) =
      some
        { statementTerminator := true
        , quoteStyle := QuoteStyle.double
        , trailingComma := TrailingComma.es5
        , indentWidth := 2
        , maxLineWidth := 100
        , arrowParensPolicy := ArrowParens.always
        , lineEnding := LineEnding.lf
        , plugins := [] } := by
  rfl

/-- Claim C2: any two invocations of the loader, in any environments and
at any call counts, return structurally identical configuration values:
the loader is deterministic and independent of environment and call
count. -/
theorem load_deterministic :
    ∀ (e1 e2 : Environment) (n m : Nat), loadNth e1 n = loadNth e2 m := by
  intro e1 e2 n m
  rfl

/-- Claim C3: in the configuration returned by the loader, the indent
width (`tabWidth` in the code) and the maximum line width (`printWidth`
in the code) are strictly positive. -/
theorem widths_positive :
    0 < (load []).tabWidth ∧ 0 < (load []).printWidth := by
  decide

/-- Claim C4: the loader is infallible: with its exception channel made
explicit, every invocation completes normally with a configuration
value and never an error. -/
theorem load_infallible :
    ∀ (env : Environment), loadExc env = Except.ok config := by
  intro env
  rfl

/-- Claim C5: the exported record carries exactly the eight fields of
the data model, each present with a value: the export equals the full
eight-argument constructor applied to the literal values, and every
configuration is determined by its eight projections (no further field
exists). -/
theorem config_total_eight_fields :
    config = Config.mk true false "es5" 2 100 "always" "lf" [] ∧
      ∀ (c : Config),
        c =
          Config.mk c.semi c.singleQuote c.trailingComma c.tabWidth
            c.printWidth c.arrowParens c.endOfLine c.plugins := by
  exact ⟨rfl, fun c => rfl⟩

/-- Claim C6: the plugins field of the loaded configuration is the
empty sequence, and appending any identifier to it leaves each of the
other seven fields unchanged. -/
theorem plugins_empty_and_append_frame :
    (load []).plugins = [] ∧
      ∀ (p : String),
        (appendPlugin (load []) p).semi = (load []).semi ∧
          (appendPlugin (load []) p).singleQuote = (load []).singleQuote ∧
          (appendPlugin (load []) p).trailingComma = (load []).trailingComma ∧
          (appendPlugin (load []) p).tabWidth = (load []).tabWidth ∧
          (appendPlugin (load []) p).printWidth = (load []).printWidth ∧
          (appendPlugin (load []) p).arrowParens = (load []).arrowParens ∧
          (appendPlugin (load []) p).endOfLine = (load []).endOfLine := by
  exact ⟨rfl, fun p => ⟨rfl, rfl, rfl, rfl, rfl, rfl, rfl⟩⟩

/-- Claim C7: serializing the loaded configuration to its object-literal
form and re-parsing that form yields the original configuration. -/
theorem parse_serialize_roundtrip :
    parse (serialize (load [])) = some (load []) := by
  rfl

/-- Claim C8: invoking the loader mutates no shared state and has no
effect beyond returning the value, and the value observed at any later
invocation equals the value at creation. -/
theorem load_pure_no_mutation :
    ∀ (s : Environment) (n : Nat), loadSt s = (config, s) ∧ loadNth s n = config := by
  intro s n
  exact ⟨rfl, rfl⟩

/-- Claim C9: every enumerated field of the exported configuration lies
in its spec-defined domain, at the expected value: trailingComma is
"es5" among its three options, arrowParens is "always" among its two
options, and endOfLine is "lf" among its four options. -/
theorem enum_fields_in_domain :
    config.trailingComma = "es5" ∧
      config.trailingComma ∈ ["none", "es5", "all"] ∧
      config.arrowParens = "always" ∧
      config.arrowParens ∈ ["always", "avoid"] ∧
      config.endOfLine = "lf" ∧
      config.endOfLine ∈ ["lf", "crlf", "cr", "auto"] := by
  decide

/-- Claim C10: the code names the spec's fields differently and encodes
the quote style with negated polarity: for every configuration the spec
view reads, statementTerminator comes from `semi`, quoteStyle is double
exactly when `singleQuote` is false, indentWidth comes from `tabWidth`,
maxLineWidth from `printWidth`, and lineEnding from `endOfLine`; in the
exported literal, `semi` is true and `singleQuote` is false. -/
theorem field_name_correspondence (c : Config) (p : FormatPreferences)
    (h : specView c = some p) :
    config.semi = true ∧
      config.singleQuote = false ∧
      p.statementTerminator = c.semi ∧
      (p.quoteStyle = QuoteStyle.double ↔ c.singleQuote = false) ∧
      p.indentWidth = c.tabWidth ∧
      p.maxLineWidth = c.printWidth ∧
      parseLE c.endOfLine = some p.lineEnding := by
  unfold specView at h
  cases htc : parseTC c.trailingComma with
  | none => simp [htc] at h
  | some tc =>
    cases hap : parseAP c.arrowParens with
    | none => simp [htc, hap] at h
    | some ap =>
      cases hle : parseLE c.endOfLine with
      | none => simp [htc, hap, hle] at h
      | some le =>
        simp [htc, hap, hle] at h
        subst h
        refine ⟨rfl, rfl, rfl, ?_, rfl, rfl, rfl⟩
        cases hq : c.singleQuote with
        | false => simp [hq]
        | true => simp [hq]

/-- Claim C10 witness: the correspondence instantiated at the exported
literal and its spec view. -/
theorem field_name_correspondence_witness :
    specCfg.statementTerminator = config.semi ∧
      (specCfg.quoteStyle = QuoteStyle.double ↔ config.singleQuote = false) ∧
      specCfg.indentWidth = config.tabWidth ∧
      specCfg.maxLineWidth = config.printWidth ∧
      parseLE config.endOfLine = some specCfg.lineEnding := by
  have h := field_name_correspondence config specCfg (by rfl)
  exact ⟨h.2.2.1, h.2.2.2.1, h.2.2.2.2.1, h.2.2.2.2.2.1, h.2.2.2.2.2.2⟩

end Sx
